import Mathlib

/-!
Verification of the BlockchainSecurityScanner core against its design spec.

Shallow embedding of the repository's Python sources:
* `security_scanner.py` — local pattern checks, contract scan combination,
  wallet safety check;
* `ai-analyzer.py` — external-inference wrappers with fail-soft defaults,
  sliding-window rate limiter and the rate-limited call wrapper;
* `app.py` — network configuration table and the Web3 provider acquisition
  logic (cache, per-endpoint retries, health checks, chain-id verification);
* `utils.py` — report generation over scan results.

Scores are modelled as exact rationals, timestamps as exact integer
seconds, machine dictionaries as structures with `Option` fields where
the source uses `dict.get` with a default.  External effects (RPC endpoints, the
inference client, `is_connected` probes) are oracles passed in explicitly.
-/

set_option maxRecDepth 100000

/-! ## Findings and local pattern checks (`security_scanner.py`) -/

/-- A single vulnerability entry as built by `analyze_contract`. -/
structure Finding where
  type : String
  severity : String
  description : String
deriving DecidableEq, Repr

def reentrancyFinding : Finding :=
  ⟨"reentrancy", "high", "Potential reentrancy vulnerability detected"⟩

def uncheckedReturnFinding : Finding :=
  ⟨"unchecked_return", "medium", "Unchecked return value from low-level call"⟩

def integerOverflowFinding : Finding :=
  ⟨"integer_overflow", "medium", "No SafeMath usage detected"⟩

def txOriginFinding : Finding :=
  ⟨"tx_origin", "high", "Dangerous tx.origin usage detected"⟩

/-- Substring containment, mirroring Python's `pat in s` on strings. -/
def containsL (pat : List Char) : List Char → Bool
  | [] => pat.isPrefixOf []
  | c :: cs => pat.isPrefixOf (c :: cs) || containsL pat cs

/-- Match a list of literal segments in order, separated by arbitrary
gaps that may not contain a newline (the `.*` of Python's `re` without
DOTALL), starting anywhere in `s` at or after its head.  Structural
recursion on an explicit fuel so the function reduces definitionally;
every recursive call shrinks `s.length + segs.length`, so that quantity
bounds the recursion depth. -/
def matchTailF : ℕ → List (List Char) → List Char → Bool
  | _, [], _ => true
  | 0, _ :: _, _ => false
  | fuel + 1, seg :: rest, s =>
    (seg.isPrefixOf s && matchTailF fuel rest (s.drop seg.length))
    ||
    (match s with
     | [] => false
     | c :: cs => !(c == '\n') && matchTailF fuel (seg :: rest) cs)

/-- `matchTailF` with sufficient fuel. -/
def matchTail (segs : List (List Char)) (s : List Char) : Bool :=
  matchTailF (s.length + segs.length + 1) segs s

/-- Existence of a regex match for a segment/gap pattern anywhere in the
text, mirroring `re.search`. -/
def searchAnywhere (segs : List (List Char)) : List Char → Bool
  | [] => matchTail segs []
  | c :: cs => matchTail segs (c :: cs) || searchAnywhere segs cs

/-- `re.search(r'\.call\{.*\}\(".*"\)', source_code)` from `analyze_contract`. -/
def uncheckedCallRe (s : List Char) : Bool :=
  searchAnywhere [(".call\x7b").data, ("\x7d(\"").data, ("\")").data] s

/-- `re.search(r'require\(.*\.call', source_code)` from `analyze_contract`. -/
def requireCallRe (s : List Char) : Bool :=
  searchAnywhere [("require(").data, (".call").data] s

/-- The four local static checks of `analyze_contract`, in source order,
each appending its finding and adding its fixed increment to the running
local score. -/
def localChecks (src : List Char) : List Finding × ℚ :=
  let p0 : List Finding × ℚ := ([], 0)
  let p1 :=
    if containsL ("call.value").data src && !containsL ("ReentrancyGuard").data src
    then (p0.1 ++ [reentrancyFinding], p0.2 + 0.4) else p0
  let p2 :=
    if uncheckedCallRe src && !requireCallRe src
    then (p1.1 ++ [uncheckedReturnFinding], p1.2 + 0.3) else p1
  let p3 :=
    if !containsL ("SafeMath").data src
    then (p2.1 ++ [integerOverflowFinding], p2.2 + 0.2) else p2
  let p4 :=
    if containsL ("tx.origin").data src
    then (p3.1 ++ [txOriginFinding], p3.2 + 0.4) else p3
  p4

/-! ## External inference wrappers (`ai-analyzer.py`) -/

/-- The JSON object `analyze_contract` reads back from the AI call:
whether an `error` key is present, and the optional `vulnerabilities`
and `risk_score` entries (read via `dict.get` with defaults). -/
structure AIResponse where
  hasError : Bool
  vulnerabilities : Option (List Finding)
  risk_score : Option ℚ
deriving DecidableEq, Repr

/-- `analyze_smart_contract`: the external call either parses to a JSON
object or raises; on any exception the function returns the placeholder
dict with an `error` key, empty `vulnerabilities` and `risk_score` 1.0. -/
def analyzeSmartContract : Except String AIResponse → AIResponse
  | .ok r => r
  | .error _ => ⟨true, some [], some 1⟩

/-- `generate_recommendations`: one hint appended per matching finding. -/
def generateRecommendations : List Finding → List String
  | [] => []
  | v :: vs =>
    (if v.type = "reentrancy" then
      ["Implement ReentrancyGuard or checks-effects-interactions pattern"]
     else if v.type = "unchecked_return" then
      ["Add require() statements to check return values"]
     else if v.type = "integer_overflow" then
      ["Use SafeMath library for arithmetic operations"]
     else if v.type = "tx_origin" then
      ["Replace tx.origin with msg.sender"]
     else []) ++ generateRecommendations vs

/-- The scan output dict of `analyze_contract` (success path). -/
structure ScanOut where
  vulnerabilities : List Finding
  risk_score : ℚ
  recommendations : List String
deriving DecidableEq, Repr

/-- The static-analysis and combination part of `analyze_contract`
(after the network context has been verified): run the local checks,
then, only when the AI analysis carries no `error` key, extend the
findings with the AI findings and reweight the score as
`0.6 * ai + 0.4 * min(local, 1.0)`; finally clamp with `min(_, 1.0)`. -/
def scanContract (src : List Char) (ai : AIResponse) : ScanOut :=
  let lc := localChecks src
  let combined :=
    if !ai.hasError then
      (lc.1 ++ ai.vulnerabilities.getD [],
       0.6 * ai.risk_score.getD 0.5 + 0.4 * min lc.2 1)
    else lc
  ⟨combined.1, min combined.2 1, generateRecommendations combined.1⟩

/-- A suspicious pattern entry from the transaction-analysis JSON. -/
structure TxPattern where
  severity : Option String
  description : Option String
deriving DecidableEq, Repr

/-- The JSON object `check_wallet_safety` reads back from the AI call. -/
structure TxResponse where
  hasError : Bool
  suspicious_patterns : Option (List TxPattern)
  risk_score : Option ℚ
deriving DecidableEq, Repr

/-- `analyze_transaction_patterns` (ai-analyzer): on any exception the
placeholder dict with an `error` key, empty `suspicious_patterns` and
`risk_score` 0.5 is returned. -/
def analyzeTransactionPatterns : Except String TxResponse → TxResponse
  | .ok r => r
  | .error _ => ⟨true, some [], some 0.5⟩

/-- A wallet flag's `severity` field holds a number on the
interaction-heuristic branch and a string on the AI branch. -/
inductive SevValue where
  | num (q : ℚ)
  | str (s : String)
deriving DecidableEq, Repr

/-- A flag entry of `check_wallet_safety`. -/
structure WalletFlag where
  type : String
  severity : SevValue
  description : String
deriving DecidableEq, Repr

/-- Output dict of `check_wallet_safety`. -/
structure WalletOut where
  address : String
  risk_score : ℚ
  flags : List WalletFlag
deriving DecidableEq, Repr

/-- `check_contract_interactions`: placeholder that always returns 0.0. -/
def checkContractInteractions (_ : String) : ℚ := 0

/-- `calculate_combined_risk_score` with both dicts carrying a
`risk_score` key and explicit weights: weighted sum clamped by
`min(1.0, max(0.0, _))`. -/
def calculateCombinedRiskScore (codeScore txScore wCode wTx : ℚ) : ℚ :=
  min 1 (max 0 (codeScore * wCode + txScore * wTx))

/-- `check_wallet_safety`: interaction heuristic first, then — only when
the transaction analysis carries no `error` key — AI flags are appended
and the score is recombined with weights 0.4 (heuristic) / 0.6 (AI). -/
def checkWalletSafety (address : String) (tx : TxResponse) : WalletOut :=
  let flags0 : List WalletFlag := []
  let risk0 : ℚ := 0
  let ir := checkContractInteractions address
  let st1 :=
    if ir > 0 then
      (flags0 ++ [⟨"suspicious_interactions", .num ir,
        "Suspicious smart contract interactions detected"⟩], risk0 + ir)
    else (flags0, risk0)
  let st2 :=
    if !tx.hasError then
      (st1.1 ++ (tx.suspicious_patterns.getD []).map (fun p =>
        (⟨"ai_detected_pattern", .str (p.severity.getD "medium"),
          p.description.getD "Suspicious pattern detected by AI"⟩ : WalletFlag)),
       calculateCombinedRiskScore st1.2 (tx.risk_score.getD 0.5) 0.4 0.6)
    else st1
  ⟨address, min st2.2 1, st2.1⟩

/-! ## Rate limiter (`ai-analyzer.py`) -/

/-- `RateLimiter`: window parameters plus the recorded request
timestamps.  Time is modelled in exact integer seconds (every scenario
in the spec is at whole-second granularity; the arithmetic of the source
is exact at these points). -/
structure RateLimiter where
  max_requests : ℕ
  time_window : ℤ
  requests : List ℤ
deriving DecidableEq, Repr

/-- `RateLimiter.allow_request`: prune timestamps outside the trailing
window, deny if the pruned window is full, otherwise record `now` and
allow.  Returns the decision and the updated limiter. -/
def allowRequest (rl : RateLimiter) (now : ℤ) : Bool × RateLimiter :=
  let pruned := rl.requests.filter (fun t => decide (now - t < rl.time_window))
  if pruned.length ≥ rl.max_requests then
    (false, { rl with requests := pruned })
  else
    (true, { rl with requests := pruned ++ [now] })

/-- `min(self.requests)` for a nonempty list. -/
def oldestRequest (t : ℤ) (ts : List ℤ) : ℤ := ts.foldl min t

/-- `RateLimiter.wait_time`: 0 for an empty list; otherwise the delay
until the oldest recorded timestamp leaves the window, 0 if it already
has. -/
def waitTime (rl : RateLimiter) (now : ℤ) : ℤ :=
  match rl.requests with
  | [] => 0
  | t :: ts =>
    let nextWindow := oldestRequest t ts + rl.time_window
    if now ≥ nextWindow then 0 else nextWindow - now

/-- One pass through the `rate_limit` decorator's wrapper for a call
arriving at `now`: ask `allow_request`; when denied, sleep `wait_time`
(computed on the pruned state) when positive, then proceed regardless.
Returns the limiter state after the call and the time at which the
wrapped external call is initiated.  Note the denied call's own
initiation time is never recorded in the window. -/
def wrapperStep (rl : RateLimiter) (now : ℤ) : RateLimiter × ℤ :=
  let ar := allowRequest rl now
  if ar.1 then (ar.2, now)
  else
    let w := waitTime ar.2 now
    if w > 0 then (ar.2, now + w) else (ar.2, now)

/-- Run a sequence of calls through the wrapper sequentially: each call
starts at its arrival time or when the previous call finished, whichever
is later (the wrapped call itself is treated as instantaneous).  Returns
the final limiter state, the clock, and the list of initiation times. -/
def runCalls (rl : RateLimiter) (clock : ℤ) : List ℤ → RateLimiter × ℤ × List ℤ
  | [] => (rl, clock, [])
  | a :: rest =>
    let start := max clock a
    let step := wrapperStep rl start
    let rec' := runCalls step.1 step.2 rest
    (rec'.1, rec'.2.1, step.2 :: rec'.2.2)

/-- Number of initiation times lying in the trailing window `(T - W, T]`. -/
def countInWindow (inits : List ℤ) (T W : ℤ) : ℕ :=
  (inits.filter (fun t => decide (T - t < W) && decide (t ≤ T))).length

/-- Number of recorded timestamps inside the limiter's trailing window. -/
def inWindowCount (rl : RateLimiter) (now : ℤ) : ℕ :=
  (rl.requests.filter (fun t => decide (now - t < rl.time_window))).length

/-! ## Connection manager (`app.py`) -/

/-- One entry of `NETWORK_CONFIGS`. -/
structure NetworkConfig where
  rpc_urls : List String
  explorer_url : String
  currency_symbol : String
  timeout : ℕ
  retry_count : ℕ
deriving DecidableEq, Repr

/-- The `NETWORK_CONFIGS` table of `app.py`. -/
def NETWORK_CONFIGS : List (ℕ × NetworkConfig) :=
  [ (1, ⟨[ "https://eth.drpc.org",
           "https://ethereum.publicnode.com",
           "https://cloudflare-eth.com",
           "https://eth-mainnet.public.blastapi.io" ],
         "https://etherscan.io", "ETH", 10, 3⟩),
    (5, ⟨[ "https://goerli.infura.io/v3/YOUR-PROJECT-ID",
           "https://ethereum-goerli.publicnode.com",
           "https://goerli.gateway.tenderly.co" ],
         "https://goerli.etherscan.io", "gETH", 10, 3⟩),
    (56, ⟨[ "https://bsc-dataseed.binance.org",
            "https://bsc-dataseed1.defibit.io",
            "https://bsc-dataseed1.ninicoin.io",
            "https://bsc.publicnode.com" ],
          "https://bscscan.com", "BNB", 10, 3⟩),
    (97, ⟨[ "https://data-seed-prebsc-1-s1.binance.org:8545",
            "https://data-seed-prebsc-2-s1.binance.org:8545",
            "https://bsc-testnet.publicnode.com" ],
          "https://testnet.bscscan.com", "tBNB", 10, 3⟩),
    (137, ⟨[ "https://polygon-rpc.com",
             "https://polygon.drpc.org",
             "https://polygon-bor.publicnode.com",
             "https://polygon.gateway.tenderly.co" ],
           "https://polygonscan.com", "MATIC", 10, 3⟩),
    (80001, ⟨[ "https://rpc-mumbai.maticvigil.com",
               "https://polygon-mumbai.gateway.tenderly.co",
               "https://polygon-mumbai.blockpi.network/v1/rpc/public" ],
             "https://mumbai.polygonscan.com", "tMATIC", 10, 3⟩) ]

/-- `network_id in NETWORK_CONFIGS` / `NETWORK_CONFIGS[network_id]`. -/
def lookupConfig (nid : ℕ) : Option NetworkConfig :=
  NETWORK_CONFIGS.lookup nid

/-- A Web3 provider session: the endpoint URL it talks to and the chain
identifier that endpoint reports via `eth.chain_id`. -/
structure Provider where
  url : String
  chainId : ℕ
deriving DecidableEq, Repr

/-- The module-level `web3_providers` dictionary, keyed by network id. -/
def Cache : Type := ℕ → Option Provider

/-- `web3_providers[network_id] = provider`. -/
def cacheInsert (c : Cache) (nid : ℕ) (p : Provider) : Cache :=
  fun k => if k = nid then some p else c k

/-- `del web3_providers[network_id]`. -/
def cacheEvict (c : Cache) (nid : ℕ) : Cache :=
  fun k => if k = nid then none else c k

/-- Observable behaviour of one connection attempt against one endpoint:
outcomes of the basic connection test, the latest-block fetch, the
reported chain id, the second `is_connected` check, the `block_number`
call, and the sync probe (`none` models `eth.syncing` raising, which the
source swallows). -/
structure AttemptBehavior where
  connected : Bool
  blockOk : Bool
  chainId : ℕ
  connected2 : Bool
  blockNumberOk : Bool
  syncing : Option Bool
deriving DecidableEq, Repr

/-- The environment an `acquire` call runs against: the `is_connected`
probe outcome for a cached provider of each chain (`none` = the probe
raises), and the behaviour of each (endpoint index, attempt index)
connection attempt. -/
structure World where
  probe : ℕ → Option Bool
  attempt : ℕ → ℕ → AttemptBehavior

/-- An attempt succeeds when every stage of the health-check sequence in
`get_web3_provider` passes: connected, block fetched, reported chain id
equals the requested network id, still connected, block number readable,
and the node does not report active syncing (a raising sync probe is
ignored). -/
def attemptOk (b : AttemptBehavior) (nid : ℕ) : Bool :=
  b.connected && b.blockOk && (b.chainId == nid) && b.connected2 &&
    b.blockNumberOk && !(b.syncing.getD false)

/-- The inner `for attempt in range(retry_count)` loop of
`get_web3_provider` for one endpoint, over the list of attempt indices,
returning the provider on the first successful attempt together with
the log of attempts made. -/
def runAttempts (w : World) (nid ep : ℕ) (url : String) :
    List ℕ → Option Provider × List (ℕ × ℕ)
  | [] => (none, [])
  | att :: rest =>
    let b := w.attempt ep att
    if attemptOk b nid then (some ⟨url, b.chainId⟩, [(ep, att)])
    else
      let r := runAttempts w nid ep url rest
      (r.1, (ep, att) :: r.2)

/-- The outer `for rpc_url in config['rpc_urls']` loop: endpoints are
tried strictly in configured order, each with its full retry budget
`range(retry_count)`, stopping at the first success. -/
def runEndpoints (w : World) (nid retry : ℕ) :
    List String → ℕ → Option Provider × List (ℕ × ℕ)
  | [], _ => (none, [])
  | url :: rest, ep =>
    match runAttempts w nid ep url (List.range retry) with
    | (some p, lg) => (some p, lg)
    | (none, lg) =>
      let r := runEndpoints w nid retry rest (ep + 1)
      (r.1, lg ++ r.2)

/-- The cached-provider fast path of `get_web3_provider`: when not
forced and a cached provider exists, probe `is_connected`; a `True`
answer returns the cached provider unchanged, a `False` answer falls
through to reconnection, and a raising probe evicts the entry before
falling through. -/
def cacheProbe (w : World) (c : Cache) (nid : ℕ) (force : Bool) :
    Option Provider × Cache :=
  if force then (none, c)
  else
    match c nid with
    | none => (none, c)
    | some p =>
      match w.probe nid with
      | some true => (some p, c)
      | some false => (none, c)
      | none => (none, cacheEvict c nid)

/-- Error taxonomy of provider acquisition: unknown network
(`ValueError`, the spec's `ConfigurationError`) or exhaustion of every
endpoint's retries (`ConnectionError`). -/
inductive AcqError where
  | configuration (nid : ℕ)
  | connection
deriving DecidableEq, Repr

/-- Result of one `get_web3_provider` call: the returned provider or
raised error, the module cache afterwards, and the ordered log of
(endpoint index, attempt index) connection attempts performed. -/
structure AcquireOutcome where
  result : Except AcqError Provider
  cache : Cache
  log : List (ℕ × ℕ)

/-- The reconnection arm of `get_web3_provider`: walk the endpoint list
with per-endpoint retries; a fresh success is cached (replacing any
previous entry for that key), exhaustion raises the connection error. -/
def acquireFresh (w : World) (c1 : Cache) (nid : ℕ) (cfg : NetworkConfig) :
    AcquireOutcome :=
  match runEndpoints w nid cfg.retry_count cfg.rpc_urls 0 with
  | (some p, lg) => ⟨.ok p, cacheInsert c1 nid p, lg⟩
  | (none, lg) => ⟨.error .connection, c1, lg⟩

/-- `get_web3_provider(network_id, force_new)`: raise for an unknown
network before any connection attempt; otherwise try the cached
provider, then fall through to the reconnection arm. -/
def acquire (w : World) (c : Cache) (nid : ℕ) (force : Bool) : AcquireOutcome :=
  match lookupConfig nid with
  | none => ⟨.error (.configuration nid), c, []⟩
  | some cfg =>
    match cacheProbe w c nid force with
    | (some p, c1) => ⟨.ok p, c1, []⟩
    | (none, c1) => acquireFresh w c1 nid cfg

/-- Cache states reachable from the initially empty provider dictionary
by any sequence of `get_web3_provider` calls (the only code that
mutates it). -/
inductive ReachableCache : Cache → Prop where
  | base : ReachableCache (fun _ => none)
  | step (w : World) (nid : ℕ) (force : Bool) (c : Cache) :
      ReachableCache c → ReachableCache (acquire w c nid force).cache

/-- Every cached provider reports the chain id it is keyed under. -/
def CacheOk (c : Cache) : Prop :=
  ∀ nid p, c nid = some p → p.chainId = nid

/-! ## Report generation (`utils.py`) -/

/-- The `severity_counts` dictionary with its three fixed keys. -/
structure SeverityCounts where
  high : ℕ
  medium : ℕ
  low : ℕ
deriving DecidableEq, Repr

/-- `severity_counts[vuln['severity']] += 1`: a lookup of any other key
raises `KeyError`, modelled as the error branch carrying the key. -/
def bumpSeverity (c : SeverityCounts) (sev : String) : Except String SeverityCounts :=
  if sev = "high" then .ok { c with high := c.high + 1 }
  else if sev = "medium" then .ok { c with medium := c.medium + 1 }
  else if sev = "low" then .ok { c with low := c.low + 1 }
  else .error sev

/-- The counting loop of `generate_report`. -/
def countSeverities : List Finding → SeverityCounts → Except String SeverityCounts
  | [], c => .ok c
  | v :: vs, c =>
    match bumpSeverity c v.severity with
    | .ok c2 => countSeverities vs c2
    | .error e => .error e

/-- A stored scan result row as `generate_report` consumes it. -/
structure ScanRow where
  vulnerabilities : List Finding
  risk_score : ℚ
  scan_date : String
deriving DecidableEq, Repr

/-- The report dict built by `generate_report`. -/
structure Report where
  total_vulnerabilities : ℕ
  risk_score : ℚ
  severity_breakdown : SeverityCounts
  critical_findings : List Finding
  details : List Finding
  timestamp : String
deriving DecidableEq, Repr

/-- `generate_report`: count severities (raising `KeyError` on any
severity outside the three fixed keys), then assemble the summary. -/
def generateReport (row : ScanRow) : Except String Report :=
  match countSeverities row.vulnerabilities ⟨0, 0, 0⟩ with
  | .error e => .error e
  | .ok counts =>
    .ok ⟨row.vulnerabilities.length, row.risk_score, counts,
         row.vulnerabilities.filter (fun v => v.severity == "high"),
         row.vulnerabilities, row.scan_date⟩

/-- Persisting a scan: `result.vulnerabilities`/`result.risk_score` are
copied verbatim from the scan output (`app.py`, `analyze` route). -/
def mkScanRow (out : ScanOut) (date : String) : ScanRow :=
  ⟨out.vulnerabilities, out.risk_score, date⟩

/-! ## Concrete instances used as witnesses and counterexamples -/

/-- The teardown `contract_limiter = RateLimiter(max_requests=50, time_window=60)`. -/
def contractLimiter : RateLimiter := ⟨50, 60, []⟩

/-- The empty provider dictionary at process start. -/
def emptyCache : Cache := fun _ => none

/-- A world whose every endpoint attempt passes all health checks and
reports chain id 1, and whose cached-provider probes answer `False`. -/
def wGood : World :=
  ⟨fun _ => some false, fun _ _ => ⟨true, true, 1, true, true, some false⟩⟩

/-- A world where endpoint 0 always passes connection and block checks
but reports chain id 999, while every other endpoint reports chain id 1
and passes everything. -/
def wMismatch : World :=
  ⟨fun _ => some false,
   fun ep _ =>
     if ep = 0 then ⟨true, true, 999, true, true, some false⟩
     else ⟨true, true, 1, true, true, some false⟩⟩

/-- Contract source triggering all four local checks (local subtotal 1.3). -/
def srcAllPatterns : List Char := ("call.value tx.origin .call\x7bx\x7d(\"y\")").data

/-- Contract source for the three-finding scenario (reentrancy,
integer-overflow, tx-origin; no unchecked-call match). -/
def srcScenario : List Char := ("call.value tx.origin").data

/-- Contract source triggering no local check (contains `SafeMath`). -/
def srcSafe : List Char := ("SafeMath").data

/-- A successful AI analysis with score 0.9 and no findings. -/
def aiNine : AIResponse := ⟨false, some [], some 0.9⟩

/-- A successful AI analysis reporting a finding of severity
`critical`, as the external model may legitimately return. -/
def aiCritical : AIResponse :=
  ⟨false, some [⟨"ai_reported", "critical", "AI reported issue"⟩], some 0.5⟩

/-! ## Helper lemmas -/

theorem localChecks_eq (src : List Char) :
    localChecks src =
      ((if containsL ("call.value").data src && !containsL ("ReentrancyGuard").data src
        then [reentrancyFinding] else [])
       ++ (if uncheckedCallRe src && !requireCallRe src
           then [uncheckedReturnFinding] else [])
       ++ (if !containsL ("SafeMath").data src then [integerOverflowFinding] else [])
       ++ (if containsL ("tx.origin").data src then [txOriginFinding] else []),
       (if containsL ("call.value").data src && !containsL ("ReentrancyGuard").data src
        then (0.4 : ℚ) else 0)
       + (if uncheckedCallRe src && !requireCallRe src then (0.3 : ℚ) else 0)
       + (if !containsL ("SafeMath").data src then (0.2 : ℚ) else 0)
       + (if containsL ("tx.origin").data src then (0.4 : ℚ) else 0)) := by
  unfold localChecks
  dsimp only
  split_ifs <;> norm_num

theorem localChecks_score_eq (src : List Char) :
    (localChecks src).2 =
      (if containsL ("call.value").data src && !containsL ("ReentrancyGuard").data src
       then (0.4 : ℚ) else 0)
      + (if uncheckedCallRe src && !requireCallRe src then (0.3 : ℚ) else 0)
      + (if !containsL ("SafeMath").data src then (0.2 : ℚ) else 0)
      + (if containsL ("tx.origin").data src then (0.4 : ℚ) else 0) := by
  rw [localChecks_eq]

theorem localChecks_score_nonneg (src : List Char) : 0 ≤ (localChecks src).2 := by
  rw [localChecks_score_eq]
  split_ifs <;> norm_num

/-! ## Claim theorems -/

/-- C2: whenever the external inference call succeeds with a score
`a ∈ [0,1]`, the contract scan's final score is exactly
`0.6 * a + 0.4 * min(local, 1)` and lies in `[0,1]` (the final clamp is
the identity there; the local subtotal is nonnegative by construction). -/
theorem contract_score_combination (src : List Char) (ai : AIResponse) (a : ℚ)
    (herr : ai.hasError = false) (hscore : ai.risk_score = some a)
    (h0 : 0 ≤ a) (h1 : a ≤ 1) :
    (scanContract src ai).risk_score = 0.6 * a + 0.4 * min (localChecks src).2 1
    ∧ 0 ≤ (scanContract src ai).risk_score
    ∧ (scanContract src ai).risk_score ≤ 1 := by
  have hl := localChecks_score_nonneg src
  have hmin0 : (0 : ℚ) ≤ min (localChecks src).2 1 := le_min hl (by norm_num)
  have hmin1 : min (localChecks src).2 1 ≤ 1 := min_le_right _ _
  have hX1 : 0.6 * a + 0.4 * min (localChecks src).2 1 ≤ 1 := by nlinarith
  have hX0 : 0 ≤ 0.6 * a + 0.4 * min (localChecks src).2 1 := by nlinarith
  have hrs : (scanContract src ai).risk_score
      = min (0.6 * a + 0.4 * min (localChecks src).2 1) 1 := by
    unfold scanContract
    rw [herr, hscore]
    simp
  refine ⟨?_, ?_, ?_⟩
  · rw [hrs]; exact min_eq_left hX1
  · rw [hrs, min_eq_left hX1]; exact hX0
  · rw [hrs]; exact min_le_right _ _

/-- Witness for C2 at the spec's own example: local subtotal 1.3
(all four checks fire), AI score 0.9, final score exactly 0.94. -/
theorem contract_score_combination_witness :
    ((scanContract srcAllPatterns aiNine).risk_score
        = 0.6 * (0.9 : ℚ) + 0.4 * min (localChecks srcAllPatterns).2 1
      ∧ 0 ≤ (scanContract srcAllPatterns aiNine).risk_score
      ∧ (scanContract srcAllPatterns aiNine).risk_score ≤ 1)
    ∧ (localChecks srcAllPatterns).2 = 1.3
    ∧ (scanContract srcAllPatterns aiNine).risk_score = 0.94 := by
  have hb1 : (containsL ("call.value").data srcAllPatterns
      && !containsL ("ReentrancyGuard").data srcAllPatterns) = true := by decide
  have hb2 : (uncheckedCallRe srcAllPatterns && !requireCallRe srcAllPatterns) = true := by
    decide
  have hb3 : (!containsL ("SafeMath").data srcAllPatterns) = true := by decide
  have hb4 : containsL ("tx.origin").data srcAllPatterns = true := by decide
  have hl : (localChecks srcAllPatterns).2 = 1.3 := by
    rw [localChecks_score_eq, hb1, hb2, hb3, hb4]
    norm_num
  have hmain := contract_score_combination srcAllPatterns aiNine 0.9 rfl rfl
    (by norm_num) (by norm_num)
  refine ⟨hmain, hl, ?_⟩
  rw [hmain.1, hl]
  norm_num [min_def]

/-- C3 counterexample: on inference failure the placeholder (score 1.0)
does not enter the weighted combination — for a source with local
subtotal 0 the scan returns 0, not `0.6 * 1 + 0.4 * min(0,1) = 0.6`. -/
theorem ai_failure_combination_cex :
    (scanContract srcSafe (analyzeSmartContract (.error "boom"))).risk_score = 0
    ∧ (analyzeSmartContract (.error "boom")).risk_score = some 1
    ∧ (localChecks srcSafe).2 = 0
    ∧ ¬ ((scanContract srcSafe (analyzeSmartContract (.error "boom"))).risk_score
        = 0.6 * 1 + 0.4 * min (localChecks srcSafe).2 1) := by
  have hb1 : (containsL ("call.value").data srcSafe
      && !containsL ("ReentrancyGuard").data srcSafe) = false := by decide
  have hb2 : (uncheckedCallRe srcSafe && !requireCallRe srcSafe) = false := by decide
  have hb3 : (!containsL ("SafeMath").data srcSafe) = false := by decide
  have hb4 : containsL ("tx.origin").data srcSafe = false := by decide
  have hl : (localChecks srcSafe).2 = 0 := by
    rw [localChecks_score_eq, hb1, hb2, hb3, hb4]
    norm_num
  have hsc : (scanContract srcSafe (analyzeSmartContract (.error "boom"))).risk_score
      = min (localChecks srcSafe).2 1 := by
    unfold scanContract analyzeSmartContract
    simp
  refine ⟨?_, rfl, hl, ?_⟩
  · rw [hsc, hl]
    norm_num [min_def]
  · rw [hsc, hl]
    norm_num [min_def]

/-- C3 (amended): when the external inference call fails, the analyzer
degrades to the placeholder (`error` key, empty findings, score 1.0) and
the scan still returns a result, but the weighted combination is
skipped: the final score is just the clamped local subtotal and the
findings are the local findings alone. -/
theorem ai_failure_fail_soft (src : List Char) (msg : String) :
    analyzeSmartContract (.error msg) = ⟨true, some [], some 1⟩
    ∧ scanContract src (analyzeSmartContract (.error msg))
        = ⟨(localChecks src).1, min (localChecks src).2 1,
           generateRecommendations (localChecks src).1⟩ := by
  refine ⟨rfl, ?_⟩
  unfold scanContract analyzeSmartContract
  simp

/-- C4 counterexample: with the interaction heuristic at its stub value
0 and a failing inference call, `check_wallet_safety` returns risk score
0 with no flags — not the claimed 0.3 combination. -/
theorem wallet_ai_failure_cex :
    checkWalletSafety "0xabc" (analyzeTransactionPatterns (.error "down"))
      = ⟨"0xabc", 0, []⟩
    ∧ ¬ ((checkWalletSafety "0xabc"
          (analyzeTransactionPatterns (.error "down"))).risk_score = 0.3) := by
  have h : checkWalletSafety "0xabc" (analyzeTransactionPatterns (.error "down"))
      = ⟨"0xabc", 0, []⟩ := by
    unfold checkWalletSafety analyzeTransactionPatterns checkContractInteractions
    norm_num [min_def]
  refine ⟨h, ?_⟩
  rw [h]
  norm_num

/-- C4 (amended): on inference failure the transaction analyzer
degrades to the placeholder with score 0.5, but `check_wallet_safety`
skips the 0.4/0.6 weighted combination entirely: the result is the
clamped heuristic score 0 with an empty flag list. -/
theorem wallet_ai_failure_skips_combination (address : String) (msg : String) :
    analyzeTransactionPatterns (.error msg) = ⟨true, some [], some 0.5⟩
    ∧ checkWalletSafety address (analyzeTransactionPatterns (.error msg))
        = ⟨address, 0, []⟩ := by
  refine ⟨rfl, ?_⟩
  unfold checkWalletSafety analyzeTransactionPatterns checkContractInteractions
  simp

/-- C9: a source containing `call.value` without `ReentrancyGuard`,
without `SafeMath`, with `tx.origin`, and not matching the
unchecked-call pattern yields exactly the three findings reentrancy,
integer-overflow and tx-origin with local subtotal exactly 1 (clamped
value 1); in general the subtotal is the sum of the four independent
fixed increments 0.4 / 0.3 / 0.2 / 0.4. -/
theorem local_checks_scenario (src : List Char)
    (h1 : containsL ("call.value").data src = true)
    (h2 : containsL ("ReentrancyGuard").data src = false)
    (h3 : containsL ("SafeMath").data src = false)
    (h4 : containsL ("tx.origin").data src = true)
    (h5 : uncheckedCallRe src = false) :
    localChecks src = ([reentrancyFinding, integerOverflowFinding, txOriginFinding], 1)
    ∧ min (localChecks src).2 1 = 1
    ∧ ∀ s2 : List Char, (localChecks s2).2 =
        (if containsL ("call.value").data s2 && !containsL ("ReentrancyGuard").data s2
         then (0.4 : ℚ) else 0)
        + (if uncheckedCallRe s2 && !requireCallRe s2 then (0.3 : ℚ) else 0)
        + (if !containsL ("SafeMath").data s2 then (0.2 : ℚ) else 0)
        + (if containsL ("tx.origin").data s2 then (0.4 : ℚ) else 0) := by
  have hb1 : (containsL ("call.value").data src
      && !containsL ("ReentrancyGuard").data src) = true := by rw [h1, h2]; rfl
  have hb2 : (uncheckedCallRe src && !requireCallRe src) = false := by rw [h5]; rfl
  have hb3 : (!containsL ("SafeMath").data src) = true := by rw [h3]; rfl
  have hmain : localChecks src
      = ([reentrancyFinding, integerOverflowFinding, txOriginFinding], 1) := by
    rw [localChecks_eq, hb1, hb2, hb3, h4]
    norm_num
  refine ⟨hmain, ?_, fun s2 => localChecks_score_eq s2⟩
  rw [hmain]
  norm_num [min_def]

/-- Witness for C9 on the concrete source `"call.value tx.origin"`. -/
theorem local_checks_scenario_witness :
    localChecks srcScenario
      = ([reentrancyFinding, integerOverflowFinding, txOriginFinding], 1) :=
  (local_checks_scenario srcScenario (by decide) (by decide) (by decide)
    (by decide) (by decide)).1


/-- Evaluation of `wait_time` on a nonempty request list. -/
theorem waitTime_cons (rl : RateLimiter) (t : ℤ) (ts : List ℤ)
    (hreq : rl.requests = t :: ts) (now : ℤ) :
    waitTime rl now =
      if now ≥ oldestRequest t ts + rl.time_window then 0
      else oldestRequest t ts + rl.time_window - now := by
  unfold waitTime
  rw [hreq]

/-- C8 counterexample: a limiter state with a single fresh timestamp —
the window is not full (1 < 50 entries), yet `wait_time` returns 60,
not 0 as the claim states for a non-full window. -/
theorem wait_time_not_full_cex :
    inWindowCount ⟨50, 60, [0]⟩ 0 = 1
    ∧ 1 < 50
    ∧ waitTime ⟨50, 60, [0]⟩ 0 = 60
    ∧ (60 : ℤ) ≠ 0 := by
  refine ⟨by decide, by decide, by decide, by decide⟩

/-- C8 (amended): for a nonempty request list, `wait_time` returns
`max 0 (oldest + window - now)` — the delay until the oldest recorded
timestamp ages out, regardless of whether the window is full; it is
monotonically non-increasing as time advances, and is exactly 0 once
the oldest recorded timestamp has aged out of the window. -/
theorem wait_time_value_monotone (rl : RateLimiter) (t : ℤ) (ts : List ℤ)
    (hreq : rl.requests = t :: ts) (now now2 : ℤ) (h : now ≤ now2) :
    waitTime rl now = max 0 (oldestRequest t ts + rl.time_window - now)
    ∧ waitTime rl now2 ≤ waitTime rl now
    ∧ (oldestRequest t ts + rl.time_window ≤ now → waitTime rl now = 0) := by
  rw [waitTime_cons rl t ts hreq now, waitTime_cons rl t ts hreq now2]
  refine ⟨?_, ?_, ?_⟩
  · split_ifs with h1
    · rw [max_eq_left (by linarith)]
    · rw [max_eq_right (by linarith)]
  · split_ifs <;> linarith
  · intro hage
    split_ifs with h1
    · rfl
    · exact (h1 hage).elim

/-- Witness for C8 (amended) at the counterexample state. -/
theorem wait_time_value_monotone_witness :
    waitTime ⟨50, 60, [0]⟩ 0 = max 0 (oldestRequest 0 [] + 60 - 0)
    ∧ waitTime ⟨50, 60, [0]⟩ 30 ≤ waitTime ⟨50, 60, [0]⟩ 0
    ∧ (oldestRequest 0 [] + 60 ≤ 0 → waitTime ⟨50, 60, [0]⟩ 0 = 0) :=
  wait_time_value_monotone ⟨50, 60, [0]⟩ 0 [] rfl 0 30 (by norm_num)

/-- C7 counterexample: 101 calls arriving at time 0 through the
contract-analysis limiter (50 requests / 60 s).  The 51st call is
denied, sleeps 60 s and proceeds at t = 60 without being recorded, so
calls 52..101 are all admitted at t = 60: 51 calls are initiated inside
the trailing window ending at t = 60, exceeding `max_requests = 50`. -/
theorem rate_window_exceeded_cex :
    ((runCalls contractLimiter 0 (List.replicate 101 0)).2.2).length = 101
    ∧ countInWindow ((runCalls contractLimiter 0 (List.replicate 101 0)).2.2) 60 60 = 51
    ∧ ¬ (countInWindow ((runCalls contractLimiter 0 (List.replicate 101 0)).2.2) 60 60
        ≤ contractLimiter.max_requests) := by
  refine ⟨by decide, by decide, by decide⟩

/-- C7 (amended): the wrapper never drops a call — every call in a
schedule produces exactly one initiation; a denied call is delayed
until the oldest recorded timestamp ages out of the window and then
proceeds (the 51st of 51 calls at t = 0 is initiated at exactly t = 60),
but its initiation is not recorded in the window, so the bound on
initiations per trailing window does not hold (see the counterexample). -/
theorem rate_limit_delay_no_drop :
    (∀ (rl : RateLimiter) (clock : ℤ) (arrivals : List ℤ),
        ((runCalls rl clock arrivals).2.2).length = arrivals.length)
    ∧ (runCalls contractLimiter 0 (List.replicate 51 0)).2.2
        = List.replicate 50 0 ++ [60] := by
  constructor
  · intro rl clock arrivals
    induction arrivals generalizing rl clock with
    | nil => rfl
    | cons a rest ih => simp [runCalls, ih]
  · decide

/-- Evaluation of `acquire` on an unconfigured network id. -/
theorem acquire_config_none_eq (w : World) (c : Cache) (nid : ℕ) (force : Bool)
    (h : lookupConfig nid = none) :
    acquire w c nid force = ⟨.error (.configuration nid), c, []⟩ := by
  unfold acquire
  rw [h]

/-- C5: for a chain identifier absent from `NETWORK_CONFIGS`, `acquire`
fails with the configuration error immediately: the cache is untouched
and the attempt log is empty — no network call is made. -/
theorem unknown_network_config_error (w : World) (c : Cache) (nid : ℕ) (force : Bool)
    (h : lookupConfig nid = none) :
    acquire w c nid force = ⟨.error (.configuration nid), c, []⟩ :=
  acquire_config_none_eq w c nid force h

/-- Witness for C5 at the unconfigured chain id 2. -/
theorem unknown_network_config_error_witness :
    acquire wGood emptyCache 2 false = ⟨.error (.configuration 2), emptyCache, []⟩ :=
  unknown_network_config_error wGood emptyCache 2 false rfl

/-- A successful attempt reported exactly the requested chain id. -/
theorem attemptOk_chainId {b : AttemptBehavior} {nid : ℕ}
    (h : attemptOk b nid = true) : b.chainId = nid := by
  unfold attemptOk at h
  simp only [Bool.and_eq_true, beq_iff_eq] at h
  exact h.1.1.1.2

/-- Any provider produced by the inner retry loop carries the requested
chain id. -/
theorem runAttempts_fst_chainId (w : World) (nid ep : ℕ) (url : String) :
    ∀ (atts : List ℕ) (p : Provider),
      (runAttempts w nid ep url atts).1 = some p → p.chainId = nid := by
  intro atts
  induction atts with
  | nil =>
    intro p h
    simp [runAttempts] at h
  | cons att rest ih =>
    intro p h
    unfold runAttempts at h
    by_cases hb : attemptOk (w.attempt ep att) nid = true
    · rw [if_pos hb] at h
      simp only [Option.some.injEq] at h
      rw [← h]
      exact attemptOk_chainId hb
    · rw [if_neg hb] at h
      exact ih p h

/-- Any provider produced by the endpoint loop carries the requested
chain id. -/
theorem runEndpoints_fst_chainId (w : World) (nid retry : ℕ) :
    ∀ (urls : List String) (ep : ℕ) (p : Provider),
      (runEndpoints w nid retry urls ep).1 = some p → p.chainId = nid := by
  intro urls
  induction urls with
  | nil =>
    intro ep p h
    simp [runEndpoints] at h
  | cons url rest ih =>
    intro ep p h
    unfold runEndpoints at h
    cases hra : runAttempts w nid ep url (List.range retry) with
    | mk r lg =>
      rw [hra] at h
      cases r with
      | some q =>
        simp only [Option.some.injEq] at h
        rw [← h]
        exact runAttempts_fst_chainId w nid ep url (List.range retry) q (by rw [hra])
      | none =>
        exact ih (ep + 1) p h

/-- The fast path only ever hands back the provider cached under the
requested key. -/
theorem cacheProbe_some (w : World) (c : Cache) (nid : ℕ) (force : Bool)
    (p : Provider) (c1 : Cache)
    (h : cacheProbe w c nid force = (some p, c1)) : c nid = some p := by
  unfold cacheProbe at h
  split_ifs at h with hf
  · simp at h
  · cases hc : c nid with
    | none => rw [hc] at h; simp at h
    | some q =>
      rw [hc] at h
      cases hp : w.probe nid with
      | none => rw [hp] at h; simp at h
      | some b =>
        rw [hp] at h
        cases b with
        | false => simp at h
        | true =>
          simp only [Prod.mk.injEq, Option.some.injEq] at h
          rw [h.1]

/-- The fast path never invalidates the cache invariant. -/
theorem cacheProbe_cacheOk (w : World) (c : Cache) (nid : ℕ) (force : Bool)
    (h : CacheOk c) : CacheOk (cacheProbe w c nid force).2 := by
  unfold cacheProbe
  split_ifs with hf
  · exact h
  · cases hc : c nid with
    | none => exact h
    | some q =>
      cases hp : w.probe nid with
      | none =>
        intro k p hk
        simp only [cacheEvict] at hk
        by_cases hkn : k = nid
        · rw [if_pos hkn] at hk; cases hk
        · rw [if_neg hkn] at hk; exact h k p hk
      | some b => cases b <;> exact h

/-- Inserting a chain-verified provider preserves the cache invariant. -/
theorem cacheInsert_cacheOk {c : Cache} {nid : ℕ} {p : Provider}
    (h : CacheOk c) (hp : p.chainId = nid) : CacheOk (cacheInsert c nid p) := by
  intro k q hk
  unfold cacheInsert at hk
  by_cases hkn : k = nid
  · rw [if_pos hkn] at hk
    cases hk
    rw [hp, hkn]
  · rw [if_neg hkn] at hk
    exact h k q hk

/-- Evaluation of `acquire` on the cache-hit path. -/
theorem acquire_hit_eq (w : World) (c : Cache) (nid : ℕ) (force : Bool)
    (cfg : NetworkConfig) (p : Provider) (c1 : Cache)
    (hconf : lookupConfig nid = some cfg)
    (hcp : cacheProbe w c nid force = (some p, c1)) :
    acquire w c nid force = ⟨.ok p, c1, []⟩ := by
  unfold acquire
  rw [hconf, hcp]

/-- Evaluation of `acquire` on the fresh-connection success path. -/
theorem acquire_fresh_some_eq (w : World) (c : Cache) (nid : ℕ) (force : Bool)
    (cfg : NetworkConfig) (p : Provider) (c1 : Cache) (lg : List (ℕ × ℕ))
    (hconf : lookupConfig nid = some cfg)
    (hcp : cacheProbe w c nid force = (none, c1))
    (hre : runEndpoints w nid cfg.retry_count cfg.rpc_urls 0 = (some p, lg)) :
    acquire w c nid force = ⟨.ok p, cacheInsert c1 nid p, lg⟩ := by
  unfold acquire
  rw [hconf, hcp]
  dsimp only
  unfold acquireFresh
  rw [hre]

/-- Evaluation of `acquire` on the all-endpoints-exhausted path. -/
theorem acquire_fresh_none_eq (w : World) (c : Cache) (nid : ℕ) (force : Bool)
    (cfg : NetworkConfig) (c1 : Cache) (lg : List (ℕ × ℕ))
    (hconf : lookupConfig nid = some cfg)
    (hcp : cacheProbe w c nid force = (none, c1))
    (hre : runEndpoints w nid cfg.retry_count cfg.rpc_urls 0 = (none, lg)) :
    acquire w c nid force = ⟨.error .connection, c1, lg⟩ := by
  unfold acquire
  rw [hconf, hcp]
  dsimp only
  unfold acquireFresh
  rw [hre]

/-- One `get_web3_provider` call preserves the cache invariant. -/
theorem acquire_cacheOk (w : World) (c : Cache) (nid : ℕ) (force : Bool)
    (h : CacheOk c) : CacheOk (acquire w c nid force).cache := by
  cases hconf : lookupConfig nid with
  | none =>
    rw [acquire_config_none_eq w c nid force hconf]
    exact h
  | some cfg =>
    cases hcp : cacheProbe w c nid force with
    | mk op c1 =>
      have hc1 : CacheOk c1 := by
        have h2 := cacheProbe_cacheOk w c nid force h
        rw [hcp] at h2
        exact h2
      cases op with
      | some p =>
        rw [acquire_hit_eq w c nid force cfg p c1 hconf hcp]
        exact hc1
      | none =>
        cases hre : runEndpoints w nid cfg.retry_count cfg.rpc_urls 0 with
        | mk r lg =>
          cases r with
          | some p =>
            rw [acquire_fresh_some_eq w c nid force cfg p c1 lg hconf hcp hre]
            have hpn : p.chainId = nid :=
              runEndpoints_fst_chainId w nid cfg.retry_count cfg.rpc_urls 0 p
                (by rw [hre])
            exact cacheInsert_cacheOk hc1 hpn
          | none =>
            rw [acquire_fresh_none_eq w c nid force cfg c1 lg hconf hcp hre]
            exact hc1

/-- Every reachable cache state satisfies the invariant. -/
theorem reachable_cacheOk {c : Cache} (h : ReachableCache c) : CacheOk c := by
  induction h with
  | base => intro nid p hp; cases hp
  | step w nid force c _ ih => exact acquire_cacheOk w c nid force ih

/-- C1: no cross-chain handle leakage — for every reachable cache state,
every successful `acquire` (cache hit or fresh connection, forced or
not) returns a provider whose reported chain id equals the requested
network id. -/
theorem acquire_no_cross_chain (w : World) (c : Cache) (nid : ℕ) (force : Bool)
    (p : Provider) (hreach : ReachableCache c)
    (hok : (acquire w c nid force).result = Except.ok p) :
    p.chainId = nid := by
  have hco : CacheOk c := reachable_cacheOk hreach
  cases hconf : lookupConfig nid with
  | none =>
    rw [acquire_config_none_eq w c nid force hconf] at hok
    cases hok
  | some cfg =>
    cases hcp : cacheProbe w c nid force with
    | mk op c1 =>
      cases op with
      | some q =>
        rw [acquire_hit_eq w c nid force cfg q c1 hconf hcp] at hok
        simp only [Except.ok.injEq] at hok
        rw [← hok]
        exact hco nid q (cacheProbe_some w c nid force q c1 hcp)
      | none =>
        cases hre : runEndpoints w nid cfg.retry_count cfg.rpc_urls 0 with
        | mk r lg =>
          cases r with
          | some q =>
            rw [acquire_fresh_some_eq w c nid force cfg q c1 lg hconf hcp hre] at hok
            simp only [Except.ok.injEq] at hok
            rw [← hok]
            exact runEndpoints_fst_chainId w nid cfg.retry_count cfg.rpc_urls 0 q
              (by rw [hre])
          | none =>
            rw [acquire_fresh_none_eq w c nid force cfg c1 lg hconf hcp hre] at hok
            cases hok

/-- Witness for C1: from the empty cache, a world whose first endpoint
passes all health checks for chain 1 yields that endpoint's provider,
whose chain id is 1. -/
theorem acquire_no_cross_chain_witness :
    (⟨"https://eth.drpc.org", 1⟩ : Provider).chainId = 1 :=
  acquire_no_cross_chain wGood emptyCache 1 false ⟨"https://eth.drpc.org", 1⟩
    ReachableCache.base (by rfl)

/-- C6 counterexample: in a world where endpoint 0 passes connection and
block checks but reports chain id 999 ≠ 1, `acquire` for chain 1 makes
three attempts against endpoint 0 — attempts (0,1) and (0,2) occur after
the mismatch at (0,0) — before advancing to endpoint 1.  The mismatch is
therefore retried on the same endpoint, contradicting the claim. -/
theorem chain_mismatch_retry_cex :
    (acquire wMismatch emptyCache 1 false).log = [(0, 0), (0, 1), (0, 2), (1, 0)]
    ∧ (wMismatch.attempt 0 0).connected = true
    ∧ (wMismatch.attempt 0 0).blockOk = true
    ∧ (wMismatch.attempt 0 0).chainId ≠ 1
    ∧ (0, 1) ∈ (acquire wMismatch emptyCache 1 false).log
    ∧ (0, 2) ∈ (acquire wMismatch emptyCache 1 false).log := by
  refine ⟨by rfl, by rfl, by rfl, by decide, by decide, by decide⟩

/-- C6 (amended): a chain-id mismatch is not special-cased — it fails
the attempt like any other health-check failure and the same endpoint is
retried until its full `retry_count` (3) budget is exhausted, only then
advancing to the next endpoint, which succeeds on its first attempt. -/
theorem chain_mismatch_retried_then_advance (w : World) (c : Cache)
    (hc : c 1 = none)
    (hfail : ∀ a, attemptOk (w.attempt 0 a) 1 = false)
    (hsucc : attemptOk (w.attempt 1 0) 1 = true) :
    (acquire w c 1 false).log = [(0, 0), (0, 1), (0, 2), (1, 0)]
    ∧ (acquire w c 1 false).result
        = Except.ok ⟨"https://ethereum.publicnode.com", (w.attempt 1 0).chainId⟩
    ∧ (w.attempt 1 0).chainId = 1 := by
  have hcfg : lookupConfig 1 = some
      ⟨["https://eth.drpc.org", "https://ethereum.publicnode.com",
        "https://cloudflare-eth.com", "https://eth-mainnet.public.blastapi.io"],
       "https://etherscan.io", "ETH", 10, 3⟩ := rfl
  have hcp : cacheProbe w c 1 false = (none, c) := by
    unfold cacheProbe
    rw [hc]
    rfl
  have hra0 : runAttempts w 1 0 "https://eth.drpc.org" (List.range 3)
      = (none, [(0, 0), (0, 1), (0, 2)]) := by
    rw [show List.range 3 = [0, 1, 2] from rfl]
    simp [runAttempts, hfail 0, hfail 1, hfail 2]
  have hra1 : runAttempts w 1 1 "https://ethereum.publicnode.com" (List.range 3)
      = (some ⟨"https://ethereum.publicnode.com", (w.attempt 1 0).chainId⟩, [(1, 0)]) := by
    rw [show List.range 3 = [0, 1, 2] from rfl]
    simp [runAttempts, hsucc]
  have hre : runEndpoints w 1 3
      ["https://eth.drpc.org", "https://ethereum.publicnode.com",
       "https://cloudflare-eth.com", "https://eth-mainnet.public.blastapi.io"] 0
      = (some ⟨"https://ethereum.publicnode.com", (w.attempt 1 0).chainId⟩,
         [(0, 0), (0, 1), (0, 2), (1, 0)]) := by
    unfold runEndpoints
    rw [hra0]
    dsimp only
    unfold runEndpoints
    rw [hra1]
    rfl
  have hacq := acquire_fresh_some_eq w c 1 false _ _ c _ hcfg hcp hre
  rw [hacq]
  exact ⟨rfl, rfl, attemptOk_chainId hsucc⟩

/-- Witness for C6 (amended) in the all-mismatch world. -/
theorem chain_mismatch_retried_then_advance_witness :
    (acquire wMismatch emptyCache 1 false).log = [(0, 0), (0, 1), (0, 2), (1, 0)]
    ∧ (acquire wMismatch emptyCache 1 false).result
        = Except.ok ⟨"https://ethereum.publicnode.com", (wMismatch.attempt 1 0).chainId⟩
    ∧ (wMismatch.attempt 1 0).chainId = 1 :=
  chain_mismatch_retried_then_advance wMismatch emptyCache rfl (fun _ => rfl) rfl

/-- A severity accepted by the counting loop is one of the three keys. -/
theorem countSeverities_ok_mem :
    ∀ (vs : List Finding) (c c2 : SeverityCounts),
      countSeverities vs c = .ok c2 →
      ∀ v ∈ vs, v.severity = "high" ∨ v.severity = "medium" ∨ v.severity = "low" := by
  intro vs
  induction vs with
  | nil =>
    intro c c2 _ v hv
    simp at hv
  | cons u us ih =>
    intro c c2 h v hv
    unfold countSeverities bumpSeverity at h
    rcases List.mem_cons.mp hv with rfl | hvm
    · split_ifs at h with h1 h2 h3
      · exact Or.inl h1
      · exact Or.inr (Or.inl h2)
      · exact Or.inr (Or.inr h3)
    · split_ifs at h with h1 h2 h3
      · exact ih _ _ h v hvm
      · exact ih _ _ h v hvm
      · exact ih _ _ h v hvm

/-- The counting loop succeeds when every severity is one of the three
keys. -/
theorem countSeverities_ok_of_mem :
    ∀ (vs : List Finding) (c : SeverityCounts),
      (∀ v ∈ vs, v.severity = "high" ∨ v.severity = "medium" ∨ v.severity = "low") →
      ∃ c2, countSeverities vs c = .ok c2 := by
  intro vs
  induction vs with
  | nil =>
    intro c _
    exact ⟨c, rfl⟩
  | cons u us ih =>
    intro c hall
    have hu := hall u (List.mem_cons_self u us)
    have hrest : ∀ v ∈ us,
        v.severity = "high" ∨ v.severity = "medium" ∨ v.severity = "low" :=
      fun v hv => hall v (List.mem_cons_of_mem u hv)
    unfold countSeverities bumpSeverity
    rcases hu with h1 | h1 | h1 <;> simp [h1] <;> exact ih _ hrest

/-- C10: `generate_report` is partial over the severities the scanner
can produce.  A reachable scan result — AI findings are appended to the
vulnerability list without severity validation — with a finding of
severity `critical` makes the severity-count lookup fail; the report is
produced only when every severity is `high`, `medium` or `low`, and it
always is under that condition. -/
theorem generate_report_severity_domain :
    (∃ e, generateReport
        (mkScanRow (scanContract srcSafe aiCritical) "2024-11-24T10:00:00")
        = .error e)
    ∧ (∀ (row : ScanRow) (r : Report), generateReport row = .ok r →
        ∀ v ∈ row.vulnerabilities,
          v.severity = "high" ∨ v.severity = "medium" ∨ v.severity = "low")
    ∧ (∀ row : ScanRow,
        (∀ v ∈ row.vulnerabilities,
          v.severity = "high" ∨ v.severity = "medium" ∨ v.severity = "low") →
        ∃ r, generateReport row = .ok r) := by
  refine ⟨⟨"critical", by rfl⟩, ?_, ?_⟩
  · intro row r hok v hv
    unfold generateReport at hok
    cases hcs : countSeverities row.vulnerabilities ⟨0, 0, 0⟩ with
    | error e => rw [hcs] at hok; cases hok
    | ok c2 => exact countSeverities_ok_mem row.vulnerabilities ⟨0, 0, 0⟩ c2 hcs v hv
  · intro row hall
    obtain ⟨c2, hc2⟩ := countSeverities_ok_of_mem row.vulnerabilities ⟨0, 0, 0⟩ hall
    refine ⟨⟨row.vulnerabilities.length, row.risk_score, c2,
      row.vulnerabilities.filter (fun v => v.severity == "high"),
      row.vulnerabilities, row.scan_date⟩, ?_⟩
    unfold generateReport
    rw [hc2]

/-- Witness for C10: a report is produced for a row whose only finding
has severity `high`. -/
theorem generate_report_severity_domain_witness :
    ∃ r, generateReport ⟨[⟨"reentrancy", "high", "d"⟩], 0, "t"⟩ = .ok r :=
  generate_report_severity_domain.2.2 ⟨[⟨"reentrancy", "high", "d"⟩], 0, "t"⟩
    (by intro v hv; rw [List.mem_singleton] at hv; subst hv; exact Or.inl rfl)
